import Mathlib

/-!
Verification of the OAuth2 token-lifecycle core of the oura-ring-cli
repository: a shallow embedding of `src/config/config.ts` (credential
record, staleness predicate), `src/auth/oauth.ts` (authorization flow,
callback listener handler, token exchange, refresh) and the freshness
path of `OuraClient.create` in `src/api/client.ts`.

Modelling conventions:
  - instants are integers, milliseconds since the Unix epoch (the value
    of JavaScript `Date.now()` and `Date.prototype.getTime`);
  - the persisted `expiry` string is modelled by `Expiry`: `empty` for
    the empty string (the never-authenticated default of `loadConfig`),
    `invalid` for a non-empty string `new Date` cannot parse (whose
    `getTime()` is NaN, and every NaN comparison is false), and
    `time t` for an ISO string written by `toISOString` from instant
    `t` (which round-trips through parsing);
  - a query parameter read by `url.searchParams.get` is `Option String`:
    `none` when the parameter is absent (JS `null`), `some s` when
    present with value `s` (possibly the empty string);
  - network effects are passed in as data: one `FetchResult` stands for
    the single response of the one POST a call performs, and each model
    function returns, besides its result, the observable effects the
    code performs (configs saved, whether a browser open was attempted,
    how many token-endpoint exchanges were made).
-/

namespace OuraCLI

/-- The persisted `expiry` field of `Config` (an ISO date string in the
source), split by how `isTokenExpired` can observe it. -/
inductive Expiry where
  | empty : Expiry
  | invalid : Expiry
  | time : Int → Expiry
deriving DecidableEq, Repr

/-- `Config` from `src/config/config.ts` lines 6-12: the single persisted
credential record. -/
structure Config where
  client_id : String
  client_secret : String
  access_token : String
  refresh_token : String
  expiry : Expiry
deriving DecidableEq, Repr

/-- The five-minute safety skew, in milliseconds: `5 * 60 * 1000` at
`src/config/config.ts` line 60. -/
def fiveMinutesMs : Int := 5 * 60 * 1000

/-- `isTokenExpired` from `src/config/config.ts` lines 54-61.
`!config.expiry` is true exactly on the empty string; otherwise the code
computes `expiryDate.getTime() - Date.now() < 5 * 60 * 1000`, which is
false when `getTime()` is NaN (an unparseable non-empty string) and is
the strict comparison `t - now < fiveMinutesMs` on a parsed instant. -/
def isTokenExpired (config : Config) (now : Int) : Bool :=
  match config.expiry with
  | Expiry.empty => true
  | Expiry.invalid => false
  | Expiry.time t => decide (t - now < fiveMinutesMs)

/-- The never-authenticated record `loadConfig` returns when the config
file is absent or unreadable (`src/config/config.ts` lines 25-43). -/
def defaultConfig : Config :=
  { client_id := ""
    client_secret := ""
    access_token := ""
    refresh_token := ""
    expiry := Expiry.empty }

/-- `TokenResponse` from `src/api/types.ts`. `refresh_token` is typed as
a plain string there, but at runtime the provider may omit the field, so
the model keeps it optional: `none` is an omitted field (JS `undefined`),
`some s` a present string (possibly empty). -/
structure TokenResponse where
  access_token : String
  refresh_token : Option String
  expires_in : Int
  token_type : String
deriving DecidableEq, Repr

/-- The outcome of the one `fetch` to the token endpoint a call makes:
`ok` carries the parsed JSON body when `response.ok` holds, `notOk`
carries the HTTP status and the raw `response.text()` body otherwise. -/
inductive FetchResult where
  | ok : TokenResponse → FetchResult
  | notOk : Nat → String → FetchResult
deriving DecidableEq, Repr

/-- JavaScript `a || b` on the optional refresh token, as used at
`src/auth/oauth.ts` line 186: an omitted field (`undefined`) and the
empty string are both falsy, so either keeps `b`. -/
def jsOrString (a : Option String) (b : String) : String :=
  match a with
  | none => b
  | some s => if s = "" then b else s

/-- The guidance appended to a refresh failure at `src/auth/oauth.ts`
line 173. -/
def reauthGuidance : String := ". Please re-authenticate with 'oura auth'."

/-- The record `refreshAccessToken` assembles on a successful exchange
(`src/auth/oauth.ts` lines 179-188): spread of the prior config with a
new `access_token`, `refresh_token: tokens.refresh_token || config.refresh_token`,
and `expiry` the absolute instant `Date.now() + tokens.expires_in * 1000`,
where `now` is the instant the response was received. -/
def refreshedConfig (config : Config) (tokens : TokenResponse) (now : Int) : Config :=
  { config with
    access_token := tokens.access_token
    refresh_token := jsOrString tokens.refresh_token config.refresh_token
    expiry := Expiry.time (now + tokens.expires_in * 1000) }

/-- What a call to `refreshAccessToken` does besides returning: the list
of configs handed to `saveConfig`, in order. -/
structure RefreshOutcome where
  result : Except String Config
  saved : List Config
deriving Repr

/-- `refreshAccessToken` from `src/auth/oauth.ts` lines 154-194, as a
function of the prior config, the single token-endpoint response, and
the instant `now` at which that response is received. A non-ok response
throws the message built at lines 172-174 (the raw body followed by
re-authentication guidance) and saves nothing; an ok response saves the
assembled `refreshedConfig` and returns the same record. The call makes
exactly one POST and never falls back to the authorization flow. -/
def refreshAccessToken (config : Config) (resp : FetchResult) (now : Int) : RefreshOutcome :=
  match resp with
  | FetchResult.notOk _status body =>
      { result := Except.error ("Failed to refresh token: " ++ body ++ reauthGuidance)
        saved := [] }
  | FetchResult.ok tokens =>
      { result := Except.ok (refreshedConfig config tokens now)
        saved := [refreshedConfig config tokens now] }

/-- One inbound HTTP request as the callback server handler observes it
(`src/auth/oauth.ts` lines 50-55): the URL path, and the `code` and
`error` query parameters as read by `url.searchParams.get` (`none` when
absent, `some s` when present with value `s`). -/
structure CallbackRequest where
  pathname : String
  code : Option String
  error : Option String
deriving DecidableEq, Repr

/-- JavaScript truthiness of `url.searchParams.get(...)`: `null` (the
parameter is absent) and the empty string are falsy. -/
def isTruthy : Option String → Bool
  | none => false
  | some s => s ≠ ""

/-- What the callback handler does with one request: answer HTTP 400 and
reject the waiting promise with the provider error, answer HTTP 200 and
resolve it with the authorization code, or do nothing (keep waiting). -/
inductive HandlerAction where
  | reject400 : String → HandlerAction
  | resolve200 : String → HandlerAction
  | ignore : HandlerAction
deriving DecidableEq, Repr

/-- The HTTP status the handler writes for a request, if any:
`res.writeHead(400, ...)` on the error branch, `res.writeHead(200, ...)`
on the code branch, nothing otherwise. -/
def actionStatus : HandlerAction → Option Nat
  | HandlerAction.reject400 _ => some 400
  | HandlerAction.resolve200 _ => some 200
  | HandlerAction.ignore => none

/-- The callback server handler, `src/auth/oauth.ts` lines 50-89.
Requests off `/callback` fall through without a response. On the
registered path the `error` branch is checked first and returns, so a
truthy error wins over any code; a truthy code resolves; a request with
neither (both absent or empty) is left unanswered. -/
def handleRequest (req : CallbackRequest) : HandlerAction :=
  if req.pathname = "/callback" then
    if isTruthy req.error then
      HandlerAction.reject400 (Option.getD req.error "")
    else if isTruthy req.code then
      HandlerAction.resolve200 (Option.getD req.code "")
    else
      HandlerAction.ignore
  else
    HandlerAction.ignore

/-- The rejection message built at `src/auth/oauth.ts` line 70. -/
def oauthErrorMsg (e : String) : String := "OAuth error: " ++ e

/-- The timeout rejection at `src/auth/oauth.ts` line 47. -/
def timeoutMsg : String := "Authentication timed out after 5 minutes"

/-- The distinguished EADDRINUSE rejection, `src/auth/oauth.ts`
lines 102-107. -/
def portInUseMsg : String :=
  "Port 8080 is already in use. Please close other applications using this port."

/-- The `await new Promise`, settled by the requests that arrive on the
bound listener in order: the first request the handler answers settles
the promise (error → rejection, code → resolution); ignored requests
leave it pending; if no request settles it within the five-minute
window, the timer rejects with `timeoutMsg` (lines 45-48). -/
def resolveCallback : List CallbackRequest → Except String String
  | [] => Except.error timeoutMsg
  | req :: rest =>
      match handleRequest req with
      | HandlerAction.reject400 e => Except.error (oauthErrorMsg e)
      | HandlerAction.resolve200 c => Except.ok c
      | HandlerAction.ignore => resolveCallback rest

/-- How `server.listen(8080, ...)` turns out: the port was bound (the
listen callback runs, so the browser open is attempted), or the error
event fired with code EADDRINUSE, or with some other error. -/
inductive ListenOutcome where
  | bound : ListenOutcome
  | eaddrinuse : ListenOutcome
  | otherError : String → ListenOutcome
deriving DecidableEq, Repr

/-- The first credential `authenticate` assembles on a successful code
exchange (`src/auth/oauth.ts` lines 138-148): the caller-supplied client
pair, the response tokens, and `expiry` the absolute instant
`Date.now() + tokens.expires_in * 1000` at receipt. The source stores
`tokens.refresh_token` directly; an omitted field is `undefined`, which
`JSON.stringify` drops and `loadConfig` later defaults to the empty
string, so the durable value of an omitted token is the empty string. -/
def authConfig (clientId clientSecret : String) (tokens : TokenResponse) (now : Int) : Config :=
  { client_id := clientId
    client_secret := clientSecret
    access_token := tokens.access_token
    refresh_token := Option.getD tokens.refresh_token ""
    expiry := Expiry.time (now + tokens.expires_in * 1000) }

/-- The observable outcome of one `authenticate` call: the thrown error
or the assembled config, whether `open(authUrl)` was attempted, how many
POSTs to the token endpoint were made, and the configs saved. -/
structure AuthOutcome where
  result : Except String Config
  browserOpenAttempted : Bool
  exchangeCount : Nat
  saved : List Config
deriving Repr

/-- `authenticate` from `src/auth/oauth.ts` lines 25-152, as a function
of the client pair and the execution environment: how the listen turned
out, the callback requests that arrive while waiting, the one
token-endpoint response, and the instant the response is received. On a
bind failure no browser open is attempted and no exchange is made; the
EADDRINUSE error is mapped to `portInUseMsg`, any other listen error is
rethrown as is (lines 100-111). On a bound listener the browser open is
attempted, and the code exchange runs only once the promise resolves
with a code: a non-ok response throws the message of line 133 carrying
the raw body; an ok response assembles `authConfig` and saves it. -/
def authenticate (clientId clientSecret : String) (listen : ListenOutcome)
    (events : List CallbackRequest) (resp : FetchResult) (now : Int) : AuthOutcome :=
  match listen with
  | ListenOutcome.eaddrinuse =>
      { result := Except.error portInUseMsg
        browserOpenAttempted := false
        exchangeCount := 0
        saved := [] }
  | ListenOutcome.otherError msg =>
      { result := Except.error msg
        browserOpenAttempted := false
        exchangeCount := 0
        saved := [] }
  | ListenOutcome.bound =>
      match resolveCallback events with
      | Except.error e =>
          { result := Except.error e
            browserOpenAttempted := true
            exchangeCount := 0
            saved := [] }
      | Except.ok _authCode =>
          match resp with
          | FetchResult.notOk _status body =>
              { result := Except.error ("Failed to exchange code for tokens: " ++ body)
                browserOpenAttempted := true
                exchangeCount := 1
                saved := [] }
          | FetchResult.ok tokens =>
              { result := Except.ok (authConfig clientId clientSecret tokens now)
                browserOpenAttempted := true
                exchangeCount := 1
                saved := [authConfig clientId clientSecret tokens now] }

/-- The `NotAuthenticated` message of `OuraClient.create`
(`src/api/client.ts`). -/
def notAuthenticatedMsg : String :=
  "Not authenticated. Please run 'oura auth' first to authenticate."

/-- The freshness path of `OuraClient.create` (`src/api/client.ts`
lines 206-221) on an already-loaded config: fail when `access_token` is
empty; refresh exactly once when `isTokenExpired` holds, consuming the
given token-endpoint response; otherwise keep the config untouched.
Returns the resulting config (or thrown message) and the number of
refresh exchanges performed. -/
def createStep (config : Config) (resp : FetchResult) (now : Int) :
    Except String Config × Nat :=
  if config.access_token = "" then
    (Except.error notAuthenticatedMsg, 0)
  else if isTokenExpired config now then
    match (refreshAccessToken config resp now).result with
    | Except.ok c => (Except.ok c, 1)
    | Except.error e => (Except.error e, 1)
  else
    (Except.ok config, 0)

/-- Two `createStep` calls in immediate succession (same clock instant
`now`): the second call starts from the config the first call produced,
each consuming its own token-endpoint response when it refreshes.
Returns the total number of refresh exchanges performed. -/
def createTwice (config : Config) (resp1 resp2 : FetchResult) (now : Int) : Nat :=
  match createStep config resp1 now with
  | (Except.ok c, n1) => n1 + (createStep c resp2 now).2
  | (Except.error _, n1) => n1

/-! Theorems. -/

/-- C1, counterexample: take `expiresAt` = 300000 ms and `now` = 0, the
instant exactly five minutes before expiry. The claim says staleness is
true at this boundary (`now >= expiresAt - 5min` holds), but
`isTokenExpired` computes the strict comparison `300000 - 0 < 300000`
and returns false. -/
theorem isTokenExpired_boundary_counterexample :
    (0 : Int) ≥ 300000 - fiveMinutesMs ∧
    isTokenExpired { defaultConfig with expiry := Expiry.time 300000 } 0 = false := by
  exact ⟨by decide, by decide⟩

/-- C1 (amended): on a parseable expiry instant `t`, `isTokenExpired` is
true exactly when `now` is strictly after `t - 5 minutes`: false for
every `now` at or before `t - 5min` (the boundary included), true for
every `now` strictly after it. -/
theorem isTokenExpired_time_iff (cid cs a r : String) (t now : Int) :
    isTokenExpired ⟨cid, cs, a, r, Expiry.time t⟩ now = true ↔ now > t - fiveMinutesMs := by
  simp [isTokenExpired, fiveMinutesMs]
  omega

/-- C10: a credential whose expiry field is the empty string — in
particular the never-authenticated `defaultConfig` that `loadConfig`
returns when the config file is absent or unreadable — is reported
stale by `isTokenExpired` at every clock value. -/
theorem isTokenExpired_empty_always (cid cs a r : String) (now : Int) :
    isTokenExpired ⟨cid, cs, a, r, Expiry.empty⟩ now = true ∧
    defaultConfig.expiry = Expiry.empty ∧
    isTokenExpired defaultConfig now = true :=
  ⟨rfl, rfl, rfl⟩

/-- C3: when the provider's refresh response omits `refresh_token` or
sends it as the empty string (both falsy to the `||` at line 186), the
refreshed credential keeps the prior `refreshToken`, and that credential
is what the successful exchange returns. -/
theorem refresh_keeps_prior_refresh_token (config : Config) (tokens : TokenResponse)
    (now : Int) (h : tokens.refresh_token = none ∨ tokens.refresh_token = some "") :
    (refreshedConfig config tokens now).refresh_token = config.refresh_token ∧
    (refreshAccessToken config (FetchResult.ok tokens) now).result
      = Except.ok (refreshedConfig config tokens now) := by
  refine ⟨?_, rfl⟩
  rcases h with h | h <;> simp [refreshedConfig, jsOrString, h]

/-- C3 witness: a concrete refresh response with the token field omitted
keeps the stored value "R". -/
theorem refresh_keeps_prior_refresh_token_witness :
    (refreshedConfig { defaultConfig with refresh_token := "R" }
        { access_token := "A2", refresh_token := none, expires_in := 86400, token_type := "Bearer" }
        0).refresh_token
      = ({ defaultConfig with refresh_token := "R" } : Config).refresh_token ∧
    (refreshAccessToken { defaultConfig with refresh_token := "R" }
        (FetchResult.ok
          { access_token := "A2", refresh_token := none, expires_in := 86400, token_type := "Bearer" })
        0).result
      = Except.ok (refreshedConfig { defaultConfig with refresh_token := "R" }
          { access_token := "A2", refresh_token := none, expires_in := 86400, token_type := "Bearer" }
          0) :=
  refresh_keeps_prior_refresh_token
    { defaultConfig with refresh_token := "R" }
    { access_token := "A2", refresh_token := none, expires_in := 86400, token_type := "Bearer" }
    0 (Or.inl rfl)

/-- C4: a successful refresh returns — and saves, the same record — a
credential with the input's `client_id` and `client_secret` untouched;
with the record's five fields this leaves exactly `access_token`,
`refresh_token` and `expiry` to change. -/
theorem refresh_preserves_client_pair (config : Config) (tokens : TokenResponse) (now : Int) :
    (refreshedConfig config tokens now).client_id = config.client_id ∧
    (refreshedConfig config tokens now).client_secret = config.client_secret ∧
    (refreshAccessToken config (FetchResult.ok tokens) now).result
      = Except.ok (refreshedConfig config tokens now) ∧
    (refreshAccessToken config (FetchResult.ok tokens) now).saved
      = [refreshedConfig config tokens now] :=
  ⟨rfl, rfl, rfl, rfl⟩

/-- C5: in both `refreshAccessToken` and `authenticate` the saved
credential carries `expiry` as the absolute instant `now + expires_in * 1000`
(receipt instant plus the granted seconds, in milliseconds), and that
very record is the one handed to `saveConfig` — the store never sees a
relative value. -/
theorem expiry_is_absolute (config : Config) (tokens : TokenResponse)
    (cid cs c : String) (now : Int) (hc : c ≠ "") :
    (refreshedConfig config tokens now).expiry
      = Expiry.time (now + tokens.expires_in * 1000) ∧
    (refreshAccessToken config (FetchResult.ok tokens) now).saved
      = [refreshedConfig config tokens now] ∧
    (authConfig cid cs tokens now).expiry
      = Expiry.time (now + tokens.expires_in * 1000) ∧
    (authenticate cid cs ListenOutcome.bound [⟨"/callback", some c, none⟩]
        (FetchResult.ok tokens) now).saved
      = [authConfig cid cs tokens now] := by
  refine ⟨rfl, rfl, rfl, ?_⟩
  simp [authenticate, resolveCallback, handleRequest, isTruthy, hc]

/-- C5 witness: the concrete end-to-end instance of the spec's scenario,
a 3600-second grant received at instant 1000 saved with expiry 3601000. -/
theorem expiry_is_absolute_witness :
    (refreshedConfig defaultConfig
        { access_token := "T", refresh_token := some "R", expires_in := 3600, token_type := "Bearer" }
        1000).expiry
      = Expiry.time (1000 + 3600 * 1000) ∧
    (refreshAccessToken defaultConfig
        (FetchResult.ok
          { access_token := "T", refresh_token := some "R", expires_in := 3600, token_type := "Bearer" })
        1000).saved
      = [refreshedConfig defaultConfig
          { access_token := "T", refresh_token := some "R", expires_in := 3600, token_type := "Bearer" }
          1000] ∧
    (authConfig "i" "s"
        { access_token := "T", refresh_token := some "R", expires_in := 3600, token_type := "Bearer" }
        1000).expiry
      = Expiry.time (1000 + 3600 * 1000) ∧
    (authenticate "i" "s" ListenOutcome.bound [⟨"/callback", some "abc123", none⟩]
        (FetchResult.ok
          { access_token := "T", refresh_token := some "R", expires_in := 3600, token_type := "Bearer" })
        1000).saved
      = [authConfig "i" "s"
          { access_token := "T", refresh_token := some "R", expires_in := 3600, token_type := "Bearer" }
          1000] :=
  expiry_is_absolute defaultConfig
    { access_token := "T", refresh_token := some "R", expires_in := 3600, token_type := "Bearer" }
    "i" "s" "abc123" 1000 (by decide)

/-- C6, counterexample: the request `/callback?error=` carries an
`error` query parameter (present with empty value), but JavaScript
truthiness makes `if (error)` miss it: the handler answers nothing (no
HTTP 400), and with no further request the flow ends in the timeout
rejection instead of failing with the provider error. -/
theorem error_param_empty_counterexample :
    handleRequest ⟨"/callback", none, some ""⟩ = HandlerAction.ignore ∧
    actionStatus (handleRequest ⟨"/callback", none, some ""⟩) = none ∧
    (authenticate "i" "s" ListenOutcome.bound [⟨"/callback", none, some ""⟩]
        (FetchResult.ok
          { access_token := "T", refresh_token := some "R", expires_in := 3600, token_type := "Bearer" })
        0).result
      = Except.error timeoutMsg ∧
    (authenticate "i" "s" ListenOutcome.bound [⟨"/callback", none, some ""⟩]
        (FetchResult.ok
          { access_token := "T", refresh_token := some "R", expires_in := 3600, token_type := "Bearer" })
        0).exchangeCount = 0 := by
  exact ⟨by decide, by decide, rfl, rfl⟩

/-- C6 (amended): for every request to the callback path whose `error`
query parameter is present with a non-empty value, the handler answers
HTTP 400, the flow fails carrying the provider error string (message
"OAuth error: " followed by it), and no token-endpoint exchange is made
in that execution. -/
theorem error_callback_rejects (cid cs e : String) (req : CallbackRequest)
    (rest : List CallbackRequest) (resp : FetchResult) (now : Int)
    (hpath : req.pathname = "/callback") (herr : req.error = some e) (hne : e ≠ "") :
    handleRequest req = HandlerAction.reject400 e ∧
    actionStatus (handleRequest req) = some 400 ∧
    (authenticate cid cs ListenOutcome.bound (req :: rest) resp now).result
      = Except.error (oauthErrorMsg e) ∧
    (authenticate cid cs ListenOutcome.bound (req :: rest) resp now).exchangeCount = 0 := by
  have h1 : handleRequest req = HandlerAction.reject400 e := by
    simp [handleRequest, hpath, herr, isTruthy, hne]
  refine ⟨h1, by simp [h1, actionStatus], ?_, ?_⟩ <;>
    simp [authenticate, resolveCallback, h1]

/-- C6 witness: the spec's scenario `?error=access_denied` at a concrete
execution. -/
theorem error_callback_rejects_witness :
    handleRequest ⟨"/callback", none, some "access_denied"⟩
      = HandlerAction.reject400 "access_denied" ∧
    actionStatus (handleRequest ⟨"/callback", none, some "access_denied"⟩) = some 400 ∧
    (authenticate "i" "s" ListenOutcome.bound [⟨"/callback", none, some "access_denied"⟩]
        (FetchResult.ok
          { access_token := "T", refresh_token := some "R", expires_in := 3600, token_type := "Bearer" })
        0).result
      = Except.error (oauthErrorMsg "access_denied") ∧
    (authenticate "i" "s" ListenOutcome.bound [⟨"/callback", none, some "access_denied"⟩]
        (FetchResult.ok
          { access_token := "T", refresh_token := some "R", expires_in := 3600, token_type := "Bearer" })
        0).exchangeCount = 0 :=
  error_callback_rejects "i" "s" "access_denied" ⟨"/callback", none, some "access_denied"⟩
    [] (FetchResult.ok
      { access_token := "T", refresh_token := some "R", expires_in := 3600, token_type := "Bearer" })
    0 rfl rfl (by decide)

/-- C7: when the listener cannot bind (EADDRINUSE), `authenticate` fails
with the dedicated `portInUseMsg`, attempts no browser open and no
exchange; every other start failure is rethrown as its own message (the
raw error), also without a browser open — so the port failure is
distinguished from all other start failures. -/
theorem port_unavailable_no_browser (cid cs m : String) (events : List CallbackRequest)
    (resp : FetchResult) (now : Int) :
    (authenticate cid cs ListenOutcome.eaddrinuse events resp now).result
      = Except.error portInUseMsg ∧
    (authenticate cid cs ListenOutcome.eaddrinuse events resp now).browserOpenAttempted
      = false ∧
    (authenticate cid cs ListenOutcome.eaddrinuse events resp now).exchangeCount = 0 ∧
    (authenticate cid cs (ListenOutcome.otherError m) events resp now).result
      = Except.error m ∧
    (authenticate cid cs (ListenOutcome.otherError m) events resp now).browserOpenAttempted
      = false :=
  ⟨rfl, rfl, rfl, rfl, rfl⟩

/-- C8: a non-success token-endpoint response makes the code exchange
fail with a message that ends in the response body verbatim, after
exactly one exchange attempt and with nothing saved; in refresh mode the
failure carries the body verbatim followed by the re-authentication
guidance, again with nothing saved and no fallback exchange. -/
theorem token_failure_carries_body (cid cs c : String) (status : Nat) (body : String)
    (config : Config) (now : Int) (hc : c ≠ "") :
    (authenticate cid cs ListenOutcome.bound [⟨"/callback", some c, none⟩]
        (FetchResult.notOk status body) now).result
      = Except.error ("Failed to exchange code for tokens: " ++ body) ∧
    (authenticate cid cs ListenOutcome.bound [⟨"/callback", some c, none⟩]
        (FetchResult.notOk status body) now).exchangeCount = 1 ∧
    (authenticate cid cs ListenOutcome.bound [⟨"/callback", some c, none⟩]
        (FetchResult.notOk status body) now).saved = [] ∧
    (refreshAccessToken config (FetchResult.notOk status body) now).result
      = Except.error ("Failed to refresh token: " ++ body ++ reauthGuidance) ∧
    (refreshAccessToken config (FetchResult.notOk status body) now).saved = [] := by
  refine ⟨?_, ?_, ?_, rfl, rfl⟩ <;>
    simp [authenticate, resolveCallback, handleRequest, isTruthy, hc]

/-- C8 witness: a concrete 401 response with body "invalid_grant". -/
theorem token_failure_carries_body_witness :
    (authenticate "i" "s" ListenOutcome.bound [⟨"/callback", some "abc123", none⟩]
        (FetchResult.notOk 401 "invalid_grant") 0).result
      = Except.error ("Failed to exchange code for tokens: " ++ "invalid_grant") ∧
    (authenticate "i" "s" ListenOutcome.bound [⟨"/callback", some "abc123", none⟩]
        (FetchResult.notOk 401 "invalid_grant") 0).exchangeCount = 1 ∧
    (authenticate "i" "s" ListenOutcome.bound [⟨"/callback", some "abc123", none⟩]
        (FetchResult.notOk 401 "invalid_grant") 0).saved = [] ∧
    (refreshAccessToken defaultConfig (FetchResult.notOk 401 "invalid_grant") 0).result
      = Except.error ("Failed to refresh token: " ++ "invalid_grant" ++ reauthGuidance) ∧
    (refreshAccessToken defaultConfig (FetchResult.notOk 401 "invalid_grant") 0).saved = [] :=
  token_failure_carries_body "i" "s" "abc123" 401 "invalid_grant" defaultConfig 0 (by decide)

/-- C9, counterexample: the request `/callback?code=abc123&error=`
contains both a `code` and an `error` query parameter, yet the error
branch does not take precedence: the empty error value is falsy, the
handler resolves the code as a success, and a token exchange occurs. -/
theorem error_precedence_counterexample :
    handleRequest ⟨"/callback", some "abc123", some ""⟩ = HandlerAction.resolve200 "abc123" ∧
    (authenticate "i" "s" ListenOutcome.bound [⟨"/callback", some "abc123", some ""⟩]
        (FetchResult.ok
          { access_token := "T", refresh_token := some "R", expires_in := 3600, token_type := "Bearer" })
        0).exchangeCount = 1 ∧
    (authenticate "i" "s" ListenOutcome.bound [⟨"/callback", some "abc123", some ""⟩]
        (FetchResult.ok
          { access_token := "T", refresh_token := some "R", expires_in := 3600, token_type := "Bearer" })
        0).result
      = Except.ok (authConfig "i" "s"
          { access_token := "T", refresh_token := some "R", expires_in := 3600, token_type := "Bearer" }
          0) := by
  exact ⟨by decide, by decide, rfl⟩

/-- C9 (amended): for every request to the callback path carrying both a
`code` parameter and an `error` parameter whose value is non-empty, the
error branch takes precedence: the handler rejects with the provider
error (never resolves the code as a success), the flow fails carrying
it, and no token exchange occurs. -/
theorem error_precedes_code (cid cs e c : String) (rest : List CallbackRequest)
    (resp : FetchResult) (now : Int) (hne : e ≠ "") :
    handleRequest ⟨"/callback", some c, some e⟩ = HandlerAction.reject400 e ∧
    handleRequest ⟨"/callback", some c, some e⟩ ≠ HandlerAction.resolve200 c ∧
    (authenticate cid cs ListenOutcome.bound (⟨"/callback", some c, some e⟩ :: rest)
        resp now).result
      = Except.error (oauthErrorMsg e) ∧
    (authenticate cid cs ListenOutcome.bound (⟨"/callback", some c, some e⟩ :: rest)
        resp now).exchangeCount = 0 := by
  have h1 : handleRequest ⟨"/callback", some c, some e⟩ = HandlerAction.reject400 e := by
    simp [handleRequest, isTruthy, hne]
  refine ⟨h1, by simp [h1], ?_, ?_⟩ <;>
    simp [authenticate, resolveCallback, h1]

/-- C9 witness: `/callback?code=abc123&error=access_denied` at a
concrete execution. -/
theorem error_precedes_code_witness :
    handleRequest ⟨"/callback", some "abc123", some "access_denied"⟩
      = HandlerAction.reject400 "access_denied" ∧
    handleRequest ⟨"/callback", some "abc123", some "access_denied"⟩
      ≠ HandlerAction.resolve200 "abc123" ∧
    (authenticate "i" "s" ListenOutcome.bound
        [⟨"/callback", some "abc123", some "access_denied"⟩]
        (FetchResult.ok
          { access_token := "T", refresh_token := some "R", expires_in := 3600, token_type := "Bearer" })
        0).result
      = Except.error (oauthErrorMsg "access_denied") ∧
    (authenticate "i" "s" ListenOutcome.bound
        [⟨"/callback", some "abc123", some "access_denied"⟩]
        (FetchResult.ok
          { access_token := "T", refresh_token := some "R", expires_in := 3600, token_type := "Bearer" })
        0).exchangeCount = 0 :=
  error_precedes_code "i" "s" "access_denied" "abc123" []
    (FetchResult.ok
      { access_token := "T", refresh_token := some "R", expires_in := 3600, token_type := "Bearer" })
    0 (by decide)

/-- C2, counterexample: a stale stored credential refreshed by a
response granting `expires_in = 0` seconds is still stale at the very
same instant (0 < the five-minute skew), so the second of two immediate
calls performs a second refresh exchange: two calls, two exchanges. -/
theorem ensure_fresh_twice_counterexample :
    isTokenExpired { defaultConfig with access_token := "A", refresh_token := "R" } 0 = true ∧
    createTwice { defaultConfig with access_token := "A", refresh_token := "R" }
      (FetchResult.ok
        { access_token := "A2", refresh_token := some "R2", expires_in := 0, token_type := "Bearer" })
      (FetchResult.ok
        { access_token := "A3", refresh_token := some "R3", expires_in := 0, token_type := "Bearer" })
      0 = 2 := by
  exact ⟨by decide, by decide⟩

/-- C2 (amended): for a stored, stale credential with a non-empty access
token, when the refresh response grants a non-empty access token and at
least the five-minute skew (`expires_in ≥ 300` seconds), the credential
the first call produces is observed as non-stale by an immediately
following second call, so the two calls perform exactly one refresh
exchange in total. -/
theorem ensure_fresh_once_when_skew_granted (config : Config) (tokens : TokenResponse)
    (resp2 : FetchResult) (now : Int)
    (hauth : config.access_token ≠ "")
    (hstale : isTokenExpired config now = true)
    (hfresh : tokens.access_token ≠ "")
    (hexp : 300 ≤ tokens.expires_in) :
    isTokenExpired (refreshedConfig config tokens now) now = false ∧
    createTwice config (FetchResult.ok tokens) resp2 now = 1 := by
  have hns : isTokenExpired (refreshedConfig config tokens now) now = false := by
    simp [isTokenExpired, refreshedConfig, fiveMinutesMs]
    omega
  have hstep1 : createStep config (FetchResult.ok tokens) now
      = (Except.ok (refreshedConfig config tokens now), 1) := by
    simp [createStep, hauth, hstale, refreshAccessToken]
  have haccess : (refreshedConfig config tokens now).access_token ≠ "" := by
    simpa [refreshedConfig] using hfresh
  have hstep2 : createStep (refreshedConfig config tokens now) resp2 now
      = (Except.ok (refreshedConfig config tokens now), 0) := by
    simp [createStep, haccess, hns]
  refine ⟨hns, ?_⟩
  simp [createTwice, hstep1, hstep2]

/-- C2 witness: a stale credential and a standard 86400-second grant at
instant 0, with a second response standing by that the second call never
consumes. -/
theorem ensure_fresh_once_when_skew_granted_witness :
    isTokenExpired
      (refreshedConfig { defaultConfig with access_token := "A", refresh_token := "R" }
        { access_token := "A2", refresh_token := some "R2", expires_in := 86400, token_type := "Bearer" }
        0) 0 = false ∧
    createTwice { defaultConfig with access_token := "A", refresh_token := "R" }
      (FetchResult.ok
        { access_token := "A2", refresh_token := some "R2", expires_in := 86400, token_type := "Bearer" })
      (FetchResult.ok
        { access_token := "A3", refresh_token := some "R3", expires_in := 86400, token_type := "Bearer" })
      0 = 1 :=
  ensure_fresh_once_when_skew_granted
    { defaultConfig with access_token := "A", refresh_token := "R" }
    { access_token := "A2", refresh_token := some "R2", expires_in := 86400, token_type := "Bearer" }
    (FetchResult.ok
      { access_token := "A3", refresh_token := some "R3", expires_in := 86400, token_type := "Bearer" })
    0 (by decide) (by decide) (by decide) (by decide)

end OuraCLI
